import Mathlib

/-!
Shallow embedding of the prompt-template management page
(`src/Tools/WebServer/pages/Prompts.tsx`) of AiNiee-Next.

The page is a React component.  Its state hooks become fields of explicit
state structures; its async handlers become pure functions that take the
outcome of the awaited persistence call as an explicit argument and return
the successor state together with the externally visible effects (which
store call was issued with which arguments, which notification was shown).
JS string operations that the handlers use (`replace` with a string
pattern, `endsWith`, `trim`) are re-implemented with their JS semantics:
in particular `String.prototype.replace(string, string)` replaces only the
FIRST occurrence of the pattern.
-/

namespace Prompts

/-! ## JS string primitives used by the component -/

/-- Remove the first occurrence of `pat` from a character list; the JS
`replace` called with a string pattern rewrites only the leftmost
occurrence and leaves the string unchanged when `pat` does not occur. -/
def removeFirstSub (pat : List Char) : List Char → List Char
  | [] => []
  | c :: rest =>
    if pat.isPrefixOf (c :: rest) then (c :: rest).drop pat.length
    else c :: removeFirstSub pat rest

/-- JS `replace` of a string pattern by the empty string: drop the first occurrence. -/
def jsReplaceFirst (s pat : String) : String :=
  ⟨removeFirstSub pat.toList s.toList⟩

/-- JS `s.endsWith(sfx)`. -/
def jsEndsWith (s sfx : String) : Bool :=
  sfx.toList.isSuffixOf s.toList

/-- JS `s.trim()`: strip leading and trailing whitespace. -/
def jsTrim (s : String) : String :=
  ⟨((s.toList.dropWhile Char.isWhitespace).reverse.dropWhile Char.isWhitespace).reverse⟩

/-! ## The external configuration object -/

/-- The record written under a selection key by "apply":
`{ last_selected_id, prompt_content }`. -/
structure BindingRecord where
  last_selected_id : String
  prompt_content : String
deriving DecidableEq, Repr

/-- A configuration value: either one of the binding records or an opaque
payload standing for the value of any other key. -/
inductive CValue where
  | binding : BindingRecord → CValue
  | raw : String → CValue
deriving DecidableEq, Repr

/-- The external configuration object, as a key-ordered association list
(JS objects have no duplicate keys). -/
abbrev Config := List (String × CValue)

/-- Key lookup in a configuration object. -/
def lookupKey : Config → String → Option CValue
  | [], _ => none
  | (k, v) :: rest, key => if k = key then some v else lookupKey rest key

/-- JS spread `{...cfg, [key]: v}`: replace the binding of `key` when
present, append it otherwise; every other key keeps its value. -/
def setKey : Config → String → CValue → Config
  | [], key, v => [(key, v)]
  | (k, w) :: rest, key, v =>
    if k = key then (k, v) :: rest else (k, w) :: setKey rest key v

/-! ## Controller state (the `useState` hooks of the component) -/

/-- Outcome of an awaited `DataService.savePromptContent` call. -/
inductive SaveResult where
  | ok
  | transportError
  | readOnly
deriving DecidableEq, Repr

/-- The state hooks of the `Prompts` component that the handlers touch. -/
structure CState where
  categories : List String
  activeCategory : String
  prompts : List String
  selectedPrompt : Option String
  content : String
  loading : Bool
  saving : Bool
  config : Option Config
deriving DecidableEq, Repr

/-! ## handleSave -/

/-- Result of running `handleSave`: successor state, the
`(category, filename, payload)` argument of the `savePromptContent` call
when one was issued, and the `alert` text when one was shown. -/
structure SaveOutcome where
  state : CState
  storeCalled : Option (String × String × String)
  notification : Option String
deriving DecidableEq, Repr

/-- `handleSave`, with the outcome of the store call passed in:
`if (!selectedPrompt) return;` then `savePromptContent(activeCategory,
selectedPrompt, content)`; success alerts the saved message, any failure
alerts `Save failed`; `finally` clears `saving`.  No other state hook is
written, and no category check is performed. -/
def handleSave (st : CState) (r : SaveResult) : SaveOutcome :=
  match st.selectedPrompt with
  | none => { state := st, storeCalled := none, notification := none }
  | some p =>
    { state := { st with saving := false },
      storeCalled := some (st.activeCategory, p, st.content),
      notification := some (match r with
        | .ok => "Saved successfully"
        | _ => "Save failed") }

/-! ## handleApply -/

/-- The selection key `handleApply` writes:
`polishing_prompt_selection` when `activeCategory` equals `Polishing`,
`translation_prompt_selection` otherwise. -/
def applyKey (cat : String) : String :=
  if cat = "Polishing" then "polishing_prompt_selection"
  else "translation_prompt_selection"

/-- The merged configuration `handleApply` builds:
a shallow copy of `config` with the computed selection key bound to
`last_selected_id` (the selected filename with the first `.txt` occurrence
removed) and `prompt_content` (the current buffer). -/
def buildNewConfig (cat filename content : String) (cfg : Config) : Config :=
  setKey cfg (applyKey cat)
    (CValue.binding ⟨jsReplaceFirst filename ".txt", content⟩)

/-- Result of running `handleApply`: successor state, the configuration
passed to `DataService.saveConfig` when the call was issued, and the
`alert` text when one was shown. -/
structure ApplyOutcome where
  state : CState
  savedConfig : Option Config
  notification : Option String
deriving DecidableEq, Repr

/-- `handleApply`, with the `saveConfig` outcome passed in as `ok`:
`if (!selectedPrompt || !config) return;`, build the merged configuration,
`await saveConfig(newConfig)`, and only on success `setConfig(newConfig)`;
failure alerts `Apply failed` and leaves `config` untouched. -/
def handleApply (st : CState) (ok : Bool) : ApplyOutcome :=
  match st.selectedPrompt, st.config with
  | some p, some cfg =>
    let newCfg := buildNewConfig st.activeCategory p st.content cfg
    if ok then
      { state := { st with config := some newCfg },
        savedConfig := some newCfg,
        notification := some "Prompt applied" }
    else
      { state := st,
        savedConfig := some newCfg,
        notification := some "Apply failed" }
  | _, _ => { state := st, savedConfig := none, notification := none }

/-! ## handleCreate -/

/-- Name normalization in `handleCreate`:
keep the name when it already ends with `.txt`, append `.txt` otherwise. -/
def normalizeName (n : String) : String :=
  if jsEndsWith n ".txt" then n else n ++ ".txt"

/-- Result of running `handleCreate`: the `(category, filename, payload)`
argument of the `savePromptContent` call when one was issued, whether the
template list was refreshed (`loadPrompts`), which filename the final
`loadPromptContent` selection was started for, and the `alert` text when
one was shown. -/
structure CreateOutcome where
  storeCalled : Option (String × String × String)
  refreshed : Bool
  selectTarget : Option String
  notification : Option String
deriving DecidableEq, Repr

/-- `handleCreate`, with the `savePromptContent` outcome passed in as `ok`:
reject when the trimmed name is empty, normalize the name, save with the
empty string as the
payload, then refresh the list and start `loadPromptContent` on the new
filename; a failed save alerts `Create failed` and skips the rest. -/
def handleCreate (st : CState) (newName : String) (ok : Bool) : CreateOutcome :=
  if jsTrim newName = "" then
    { storeCalled := none, refreshed := false, selectTarget := none,
      notification := none }
  else
    let filename := normalizeName newName
    if ok then
      { storeCalled := some (st.activeCategory, filename, ""),
        refreshed := true, selectTarget := some filename,
        notification := none }
    else
      { storeCalled := some (st.activeCategory, filename, ""),
        refreshed := false, selectTarget := none,
        notification := some "Create failed" }

/-! ## loadCategories -/

/-- The selection `loadCategories` makes after `listPromptCategories`
resolves: `if (cats.length > 0 && !activeCategory)
setActiveCategory` with `Translate` when present, the first entry else.
The component stores "no category selected" as the empty string
(the hook starts from the empty string). -/
def loadCategoriesSelect (cats : List String) (active : String) : String :=
  if 0 < cats.length ∧ active = "" then
    if "Translate" ∈ cats then "Translate" else cats.headD ""
  else active

/-! ## The category-switch / template-list race

`useEffect` on `activeCategory` fires `loadPrompts(activeCategory)` exactly
when the value changed to a non-empty category, and `loadPrompts` ends in
an unconditional `setPrompts(list)`.  We model the interleaving of category
selections and response arrivals: `issued` records the category of every
`listPrompts` request in issue order, and `resolve i` delivers request
the response of request `i`.  The store maps a category to its list. -/

structure CatState where
  activeCategory : String
  prompts : List String
  issued : List String
deriving DecidableEq, Repr

inductive CatEv where
  | select : String → CatEv
  | resolve : Nat → CatEv
deriving DecidableEq, Repr

/-- One scheduler step.  `select c` is a category click: `setActiveCategory(c)`,
and — when the value changed and is non-empty — the effect issues a
`listPrompts(c)` request.  `resolve i` is the arrival of the response of
request `i`: `loadPrompts` runs `setPrompts(list)` with no staleness check. -/
def catStep (store : String → List String) (st : CatState) (ev : CatEv) :
    CatState :=
  match ev with
  | .select c =>
    { st with
      activeCategory := c,
      issued :=
        if c ≠ "" ∧ c ≠ st.activeCategory then st.issued ++ [c] else st.issued }
  | .resolve i =>
    match st.issued.get? i with
    | some c => { st with prompts := store c }
    | none => st

/-- The initial component state: no category, no prompts, no requests. -/
def catInit : CatState := { activeCategory := "", prompts := [], issued := [] }

/-! ## The saving guard

The Save button is rendered only under `selectedPrompt && !isSystem` and
carries `disabled={saving}`; `handleSave` sets `saving` for the duration of
the call.  The Apply button is rendered under
`selectedPrompt && !isSystem && isSelectionTarget`, carries no `disabled`
attribute, and `handleApply` never touches `saving`.  We count in-flight
calls to compare against the one-in-flight claim. -/

structure UiState where
  activeCategory : String
  selectedPrompt : Option String
  hasConfig : Bool
  saving : Bool
  inFlightSave : Nat
  inFlightApply : Nat
deriving DecidableEq, Repr

/-- `selectedPrompt && !isSystem`: the header action block is rendered. -/
def saveActionRendered (st : UiState) : Bool :=
  st.selectedPrompt.isSome && st.activeCategory ≠ "System"

/-- The Apply button is additionally guarded by
`isSelectionTarget`: the category is `Translate` or `Polishing`. -/
def applyActionRendered (st : UiState) : Bool :=
  saveActionRendered st &&
    (st.activeCategory = "Translate" || st.activeCategory = "Polishing")

inductive UiEv where
  | clickSave
  | resolveSave
  | clickApply
  | resolveApply
deriving DecidableEq, Repr

/-- One UI step.  A Save click goes through only when the button is rendered
and not disabled (the `disabled` attribute is `saving`) and the own guard
of `handleSave` (a selected prompt) passes; it runs `setSaving` and starts
the call.  The resolution of a save runs the `finally setSaving(false)`.
An Apply click goes through whenever the button is rendered and
the guard of `handleApply` (a selected prompt and a config) passes: there is
no `disabled` attribute and no flag is set. -/
def uiStep (st : UiState) (ev : UiEv) : UiState :=
  match ev with
  | .clickSave =>
    if saveActionRendered st && !st.saving && st.selectedPrompt.isSome then
      { st with saving := true, inFlightSave := st.inFlightSave + 1 }
    else st
  | .resolveSave =>
    if 0 < st.inFlightSave then
      { st with saving := false, inFlightSave := st.inFlightSave - 1 }
    else st
  | .clickApply =>
    if applyActionRendered st && st.selectedPrompt.isSome && st.hasConfig then
      { st with inFlightApply := st.inFlightApply + 1 }
    else st
  | .resolveApply =>
    if 0 < st.inFlightApply then
      { st with inFlightApply := st.inFlightApply - 1 }
    else st

/-- A session start: no call in flight, `saving` false. -/
def uiInit (cat : String) (sel : Option String) (hasCfg : Bool) : UiState :=
  { activeCategory := cat, selectedPrompt := sel, hasConfig := hasCfg,
    saving := false, inFlightSave := 0, inFlightApply := 0 }

/-! ## Session steps for the snapshot invariant -/

/-- An operator action after a template was applied: a buffer edit
(`setContent`, the `onChange` of the textarea), a completed `handleSave`, or a
completed `handleApply`. -/
inductive SOp where
  | editContent : String → SOp
  | saveOp : SaveResult → SOp
  | applyOp : Bool → SOp
deriving DecidableEq, Repr

/-- Effect of one action on the component state. -/
def stepOp (st : CState) (op : SOp) : CState :=
  match op with
  | .editContent s => { st with content := s }
  | .saveOp r => (handleSave st r).state
  | .applyOp ok => (handleApply st ok).state

def SOp.isApplyOp : SOp → Bool
  | .applyOp _ => true
  | _ => false

/-! ## The reading the spec gives of the identifier stored by apply

The spec states the Binding Record holds the filename "with extension
stripped"; with the default `.txt` extension of the subsystem this reads as:
remove the trailing `.txt` when present. -/

/-- The identifier the spec describes: the filename with its (trailing)
`.txt` extension stripped. -/
def specStripExtension (s : String) : String :=
  if jsEndsWith s ".txt" then ⟨s.toList.dropLast.dropLast.dropLast.dropLast⟩
  else s

/-! ## Concrete sample states used to instantiate the theorems -/

/-- A configuration holding an old translation selection and one unrelated
key. -/
def sampleConfig : Config :=
  [("translation_prompt_selection", CValue.raw "old"),
   ("other_key", CValue.raw "keep")]

/-- A session that has the protected `System` category active with a
template selected. -/
def sysState : CState :=
  { categories := ["System", "Translate", "Polishing"],
    activeCategory := "System", prompts := ["base.txt"],
    selectedPrompt := some "base.txt", content := "Hello",
    loading := false, saving := false, config := some sampleConfig }

/-- The scenario of the spec: `Translate` active, `a.txt` selected, buffer
edited to `Hello World`. -/
def transState : CState :=
  { categories := ["System", "Translate", "Polishing"],
    activeCategory := "Translate", prompts := ["a.txt", "b.txt"],
    selectedPrompt := some "a.txt", content := "Hello World",
    loading := false, saving := false, config := some sampleConfig }

/-- Like `transState` but with a filename whose first `.txt` occurrence is
not its extension. -/
def oddNameState : CState :=
  { categories := ["System", "Translate", "Polishing"],
    activeCategory := "Translate", prompts := ["b.txtc.txt"],
    selectedPrompt := some "b.txtc.txt", content := "Hello",
    loading := false, saving := false, config := some sampleConfig }

/-! ## Helper lemmas -/

theorem lookupKey_setKey_same (cfg : Config) (key : String) (v : CValue) :
    lookupKey (setKey cfg key v) key = some v := by
  induction cfg with
  | nil => simp [setKey, lookupKey]
  | cons hd tl ih =>
    obtain ⟨k, w⟩ := hd
    by_cases h : k = key
    · simp [setKey, lookupKey, h]
    · simp [setKey, lookupKey, h, ih]

theorem lookupKey_setKey_other (cfg : Config) (key k : String) (v : CValue)
    (h : k ≠ key) : lookupKey (setKey cfg key v) k = lookupKey cfg k := by
  induction cfg with
  | nil => simp [setKey, lookupKey, Ne.symm h]
  | cons hd tl ih =>
    obtain ⟨k', w⟩ := hd
    by_cases h' : k' = key
    · subst h'
      simp [setKey, lookupKey, Ne.symm h]
    · by_cases h'' : k' = k
      · subst h''
        simp [setKey, lookupKey, h']
      · simp [setKey, lookupKey, h', h'', ih]

theorem handleSave_config (st : CState) (r : SaveResult) :
    (handleSave st r).state.config = st.config := by
  cases h : st.selectedPrompt <;> simp [handleSave, h]

theorem handleSave_content (st : CState) (r : SaveResult) :
    (handleSave st r).state.content = st.content := by
  cases h : st.selectedPrompt <;> simp [handleSave, h]

theorem stepOp_config (st : CState) (op : SOp) (h : op.isApplyOp = false) :
    (stepOp st op).config = st.config := by
  cases op with
  | editContent s => simp [stepOp]
  | saveOp r => simp [stepOp, handleSave_config]
  | applyOp ok => simp [SOp.isApplyOp] at h

theorem foldl_stepOp_config (ops : List SOp) (st : CState)
    (h : ∀ op ∈ ops, op.isApplyOp = false) :
    (ops.foldl stepOp st).config = st.config := by
  induction ops generalizing st with
  | nil => rfl
  | cons op rest ih =>
    have h1 : op.isApplyOp = false := h op (by simp)
    have h2 : ∀ o ∈ rest, o.isApplyOp = false := fun o ho => h o (by simp [ho])
    simp only [List.foldl_cons]
    rw [ih _ h2, stepOp_config st op h1]

/-- The coupling between the `saving` flag and in-flight save calls. -/
def SaveInv (st : UiState) : Prop :=
  st.inFlightSave ≤ 1 ∧ (st.saving = true ↔ st.inFlightSave = 1)

theorem uiStep_saveInv (st : UiState) (ev : UiEv) (h : SaveInv st) :
    SaveInv (uiStep st ev) := by
  obtain ⟨h1, h2⟩ := h
  cases ev with
  | clickSave =>
    by_cases hc : (saveActionRendered st && !st.saving &&
        st.selectedPrompt.isSome) = true
    · have hs : st.saving = false := by
        by_contra hs'
        simp [Bool.not_eq_false] at hs'
        simp [hs'] at hc
      have : st.inFlightSave = 0 := by
        rcases Nat.lt_or_ge st.inFlightSave 1 with h0 | h0
        · omega
        · exfalso
          have : st.inFlightSave = 1 := by omega
          rw [h2.mpr this] at hs
          simp at hs
      constructor <;> simp [uiStep, hc, this]
    · simpa [uiStep, hc] using ⟨h1, h2⟩
  | resolveSave =>
    by_cases hc : 0 < st.inFlightSave
    · have : st.inFlightSave = 1 := by omega
      constructor <;> simp [uiStep, hc, this]
    · simpa [uiStep, hc] using ⟨h1, h2⟩
  | clickApply =>
    by_cases hc : (applyActionRendered st && st.selectedPrompt.isSome &&
        st.hasConfig) = true <;>
      simpa [uiStep, hc] using ⟨h1, h2⟩
  | resolveApply =>
    by_cases hc : 0 < st.inFlightApply <;>
      simpa [uiStep, hc] using ⟨h1, h2⟩

theorem foldl_uiStep_saveInv (evs : List UiEv) (st : UiState)
    (h : SaveInv st) : SaveInv (evs.foldl uiStep st) := by
  induction evs generalizing st with
  | nil => exact h
  | cons ev rest ih => exact ih _ (uiStep_saveInv st ev h)

/-! ## Claims -/

/-- C1, counterexample.  Select `C1`, then `C2` before the `C1` response
resolves; the `C2` response arrives first and the stale `C1` response
last.  `loadPrompts` applies every response unconditionally, so the final
template list is the stale `C1` list, not the list for `C2`: the claim
that the stale response is discarded (last-request-wins) is false. -/
theorem c1_counterexample :
    (([CatEv.select "C1", CatEv.select "C2",
        CatEv.resolve 1, CatEv.resolve 0].foldl
      (catStep fun c => if c = "C2" then ["b.txt"] else ["a.txt"])
      catInit).activeCategory = "C2") ∧
    (([CatEv.select "C1", CatEv.select "C2",
        CatEv.resolve 1, CatEv.resolve 0].foldl
      (catStep fun c => if c = "C2" then ["b.txt"] else ["a.txt"])
      catInit).prompts = ["a.txt"]) ∧
    (["a.txt"] : List String) ≠ ["b.txt"] := by
  refine ⟨by decide, by decide, by decide⟩

/-- C1, amended: the controller has no staleness check — every
`listTemplates` response overwrites the list on arrival, so after any
event trace the list equals the list of the request whose response
resolved last (last-response-wins, not last-request-wins); a stale
response that resolves after the newer one does overwrite it. -/
theorem c1_last_response_wins (store : String → List String)
    (evs : List CatEv) (st : CatState) (i : Nat) (c : String)
    (h : ((evs.foldl (catStep store) st).issued).get? i = some c) :
    ((evs ++ [CatEv.resolve i]).foldl (catStep store) st).prompts =
      store c := by
  rw [List.foldl_append]
  rw [List.get?_eq_getElem?] at h
  simp [catStep, h]

theorem c1_last_response_wins_witness :
    (([CatEv.select "C1", CatEv.select "C2"].foldl
      (catStep fun c => if c = "C2" then ["b.txt"] else ["a.txt"])
      catInit).issued.get? 1 = some "C2") ∧
    ((([CatEv.select "C1", CatEv.select "C2"] ++ [CatEv.resolve 1]).foldl
      (catStep fun c => if c = "C2" then ["b.txt"] else ["a.txt"])
      catInit).prompts = ["b.txt"]) := by
  refine ⟨by decide, ?_⟩
  have h := c1_last_response_wins
    (fun c => if c = "C2" then ["b.txt"] else ["a.txt"])
    [CatEv.select "C1", CatEv.select "C2"] catInit 1 "C2" (by decide)
  simpa using h

/-- C2, counterexample.  With the protected `System` category active and a
template selected, `handleSave` issues the store write unchanged: the
controller performs no category check, so the claimed in-controller
enforcement (reject the save, never reach the store) is false. -/
theorem c2_counterexample :
    sysState.activeCategory = "System" ∧
    (handleSave sysState SaveResult.ok).storeCalled =
      some ("System", "base.txt", "Hello") := by
  refine ⟨rfl, by decide⟩

/-- C2, amended: `handleSave` is guarded only by `selectedTemplate` being
set; when it is, the write is forwarded to the store with whatever the
active category is, the protected `System` category included.  The
read-only protection lives in the presentation layer alone: the Save
action is rendered exactly when a template is selected and the active
category is not `System`. -/
theorem c2_save_guard (st : CState) (r : SaveResult) (p : String)
    (ui : UiState) (h : st.selectedPrompt = some p) :
    (handleSave st r).storeCalled =
      some (st.activeCategory, p, st.content) ∧
    (handleSave { st with selectedPrompt := none } r).storeCalled = none ∧
    (saveActionRendered ui = true ↔
      ui.selectedPrompt.isSome = true ∧ ui.activeCategory ≠ "System") := by
  refine ⟨by simp [handleSave, h], by simp [handleSave], ?_⟩
  simp [saveActionRendered]

theorem c2_save_guard_witness :
    sysState.selectedPrompt = some "base.txt" ∧
    (handleSave sysState SaveResult.readOnly).storeCalled =
      some (sysState.activeCategory, "base.txt", sysState.content) ∧
    saveActionRendered
      { activeCategory := "System", selectedPrompt := some "base.txt",
        hasConfig := true, saving := false, inFlightSave := 0,
        inFlightApply := 0 } = false := by
  have h := c2_save_guard sysState SaveResult.readOnly "base.txt"
    { activeCategory := "System", selectedPrompt := some "base.txt",
      hasConfig := true, saving := false, inFlightSave := 0,
      inFlightApply := 0 } rfl
  exact ⟨rfl, h.1, by decide⟩

/-- C3, counterexample.  For the selected filename `b.txtc.txt` the claim
says the stored identifier is the filename with its extension stripped,
`b.txtc`; the code removes the FIRST occurrence of `.txt` instead and
stores `bc.txt`. -/
theorem c3_counterexample :
    (handleApply oddNameState true).savedConfig =
      some [("translation_prompt_selection",
              CValue.binding ⟨"bc.txt", "Hello"⟩),
            ("other_key", CValue.raw "keep")] ∧
    specStripExtension "b.txtc.txt" = "b.txtc" ∧
    ("bc.txt" : String) ≠ "b.txtc" := by
  refine ⟨by decide, by decide, by decide⟩

/-- C3, amended: for the selection-target categories, `handleApply`
returns the configuration shallow-copied with exactly one key replaced —
`translation_prompt_selection` for `Translate`,
`polishing_prompt_selection` for `Polishing` — whose value is the record
of the filename with the FIRST occurrence of `.txt` removed (which equals
extension stripping only when that occurrence is the trailing extension)
and the current buffer content; every other key keeps its value. -/
theorem c3_apply_builds_record (st : CState) (p : String) (cfg : Config)
    (h1 : st.selectedPrompt = some p) (h2 : st.config = some cfg) :
    (handleApply st true).savedConfig =
      some (setKey cfg (applyKey st.activeCategory)
        (CValue.binding ⟨jsReplaceFirst p ".txt", st.content⟩)) ∧
    (st.activeCategory = "Translate" →
      applyKey st.activeCategory = "translation_prompt_selection") ∧
    (st.activeCategory = "Polishing" →
      applyKey st.activeCategory = "polishing_prompt_selection") ∧
    lookupKey (setKey cfg (applyKey st.activeCategory)
        (CValue.binding ⟨jsReplaceFirst p ".txt", st.content⟩))
      (applyKey st.activeCategory) =
      some (CValue.binding ⟨jsReplaceFirst p ".txt", st.content⟩) ∧
    (∀ k, k ≠ applyKey st.activeCategory →
      lookupKey (setKey cfg (applyKey st.activeCategory)
          (CValue.binding ⟨jsReplaceFirst p ".txt", st.content⟩)) k =
        lookupKey cfg k) := by
  refine ⟨?_, ?_, ?_, ?_, ?_⟩
  · simp [handleApply, h1, h2, buildNewConfig]
  · intro hc
    simp [applyKey, hc]
  · intro hc
    simp [applyKey, hc]
  · exact lookupKey_setKey_same cfg _ _
  · intro k hk
    exact lookupKey_setKey_other cfg _ k _ hk

theorem c3_apply_builds_record_witness :
    transState.selectedPrompt = some "a.txt" ∧
    transState.config = some sampleConfig ∧
    (handleApply transState true).savedConfig =
      some (setKey sampleConfig (applyKey transState.activeCategory)
        (CValue.binding
          ⟨jsReplaceFirst "a.txt" ".txt", transState.content⟩)) ∧
    (handleApply transState true).savedConfig =
      some [("translation_prompt_selection",
              CValue.binding ⟨"a", "Hello World"⟩),
            ("other_key", CValue.raw "keep")] :=
  ⟨rfl, rfl,
    (c3_apply_builds_record transState "a.txt" sampleConfig rfl rfl).1,
    by decide⟩

/-- C4: the Binding Record is a snapshot.  Starting from the state after a
successful `handleApply`, any sequence of buffer edits and `handleSave`
completions (no further apply) leaves the cached configuration — and with
it both fields of the previously written Binding Record — unchanged. -/
theorem c4_snapshot (st : CState) (ops : List SOp)
    (h : ∀ op ∈ ops, op.isApplyOp = false) :
    (ops.foldl stepOp ((handleApply st true).state)).config =
      (handleApply st true).state.config :=
  foldl_stepOp_config ops _ h

theorem c4_snapshot_witness :
    (∀ op ∈ ([SOp.editContent "edited later", SOp.saveOp SaveResult.ok] :
        List SOp), op.isApplyOp = false) ∧
    (([SOp.editContent "edited later", SOp.saveOp SaveResult.ok].foldl
      stepOp ((handleApply transState true).state)).config =
      (handleApply transState true).state.config) :=
  ⟨by decide,
    c4_snapshot transState
      [SOp.editContent "edited later", SOp.saveOp SaveResult.ok]
      (by decide)⟩

/-- C5: `handleCreate` rejects names whose trim is empty without touching
the store; any other name is normalized by appending `.txt` when missing,
saved with the empty string as payload, the list is refreshed and the new
filename is selected; `foo` and `foo.txt` both normalize to `foo.txt`. -/
theorem c5_create (st : CState) (n : String) :
    (jsTrim n = "" →
      handleCreate st n true =
        { storeCalled := none, refreshed := false, selectTarget := none,
          notification := none }) ∧
    (jsTrim n ≠ "" →
      handleCreate st n true =
        { storeCalled := some (st.activeCategory, normalizeName n, ""),
          refreshed := true, selectTarget := some (normalizeName n),
          notification := none }) ∧
    normalizeName "foo" = "foo.txt" ∧
    normalizeName "foo.txt" = "foo.txt" ∧
    jsTrim "" = "" ∧ jsTrim "   " = "" := by
  refine ⟨?_, ?_, by decide, by decide, by decide, by decide⟩
  · intro h
    simp [handleCreate, h]
  · intro h
    simp [handleCreate, h]

theorem c5_create_witness :
    jsTrim "   " = "" ∧
    handleCreate transState "   " true =
      { storeCalled := none, refreshed := false, selectTarget := none,
        notification := none } ∧
    jsTrim "foo" ≠ "" ∧
    handleCreate transState "foo" true =
      { storeCalled :=
          some (transState.activeCategory, normalizeName "foo", ""),
        refreshed := true, selectTarget := some (normalizeName "foo"),
        notification := none } :=
  ⟨by decide, (c5_create transState "   ").1 (by decide),
   by decide, (c5_create transState "foo").2.1 (by decide)⟩

/-- C6: when the `saveConfig` call inside `handleApply` fails, the cached
configuration of the session is left exactly as it was — `setConfig` runs
only after the save resolves successfully. -/
theorem c6_apply_failure_config (st : CState) :
    (handleApply st false).state.config = st.config ∧
    (handleApply st false).state = st := by
  cases h1 : st.selectedPrompt <;> cases h2 : st.config <;>
    simp [handleApply, h1, h2]

/-- C7: when the `savePromptContent` call inside `handleSave` fails with a
transport error, the edit buffer afterwards equals the buffer before the
call, and the failure is surfaced as the `Save failed` notification rather
than swallowed. -/
theorem c7_save_failure (st : CState) (p : String)
    (h : st.selectedPrompt = some p) :
    (handleSave st SaveResult.transportError).state.content = st.content ∧
    (handleSave st SaveResult.transportError).notification =
      some "Save failed" ∧
    (handleSave st SaveResult.transportError).state.selectedPrompt =
      st.selectedPrompt ∧
    (handleSave st SaveResult.transportError).state.config = st.config := by
  simp [handleSave, h]

theorem c7_save_failure_witness :
    transState.selectedPrompt = some "a.txt" ∧
    (handleSave transState SaveResult.transportError).state.content =
      transState.content ∧
    (handleSave transState SaveResult.transportError).notification =
      some "Save failed" :=
  ⟨rfl, (c7_save_failure transState "a.txt" rfl).1,
    (c7_save_failure transState "a.txt" rfl).2.1⟩

/-- C8, counterexample.  The Apply button carries no `disabled` attribute
and `handleApply` never sets `saving`, so from a session with `a.txt`
selected in `Translate`, two Apply clicks with no resolution in between
put two apply calls in flight at once: the claimed `isSaving` guard on
apply does not exist. -/
theorem c8_counterexample :
    (uiStep (uiInit "Translate" (some "a.txt") true)
      UiEv.clickApply).inFlightApply = 1 ∧
    (uiStep (uiStep (uiInit "Translate" (some "a.txt") true)
      UiEv.clickApply) UiEv.clickApply).inFlightApply = 2 := by
  refine ⟨by decide, by decide⟩

/-- C8, amended: the `isSaving` guard serializes `save()` — along every
event trace from a session start at most one save call is in flight,
because the Save button is disabled while `saving` holds — but `apply()`
is not guarded at all, and two apply calls can be in flight concurrently
(two immediate Apply clicks reach two). -/
theorem c8_save_serialized (cat : String) (sel : Option String)
    (hasCfg : Bool) (evs : List UiEv) :
    (evs.foldl uiStep (uiInit cat sel hasCfg)).inFlightSave ≤ 1 ∧
    ([UiEv.clickApply, UiEv.clickApply].foldl uiStep
      (uiInit "Translate" (some "a.txt") true)).inFlightApply = 2 := by
  constructor
  · exact (foldl_uiStep_saveInv evs _ (by constructor <;> simp [uiInit])).1
  · decide

/-- C9: `handleApply` keys the Binding Record solely on whether the active
category equals `Polishing`; for every other category — the protected
`System` category and unknown categories included — it writes the
`translation_prompt_selection` key instead of rejecting the call. -/
theorem c9_apply_key (st : CState) (p : String) (cfg : Config)
    (h1 : st.selectedPrompt = some p) (h2 : st.config = some cfg)
    (h3 : st.activeCategory ≠ "Polishing") :
    applyKey st.activeCategory = "translation_prompt_selection" ∧
    (handleApply st true).savedConfig =
      some (setKey cfg "translation_prompt_selection"
        (CValue.binding ⟨jsReplaceFirst p ".txt", st.content⟩)) := by
  have hk : applyKey st.activeCategory = "translation_prompt_selection" := by
    simp [applyKey, h3]
  refine ⟨hk, ?_⟩
  simp [handleApply, h1, h2, buildNewConfig, hk]

theorem c9_apply_key_witness :
    sysState.activeCategory = "System" ∧
    applyKey sysState.activeCategory = "translation_prompt_selection" ∧
    (handleApply sysState true).savedConfig =
      some (setKey sampleConfig "translation_prompt_selection"
        (CValue.binding
          ⟨jsReplaceFirst "base.txt" ".txt", sysState.content⟩)) :=
  ⟨rfl, (c9_apply_key sysState "base.txt" sampleConfig rfl rfl
          (by decide)).1,
    (c9_apply_key sysState "base.txt" sampleConfig rfl rfl (by decide)).2⟩

/-- C10: when `listPromptCategories` resolves with a non-empty list of
(non-empty) category names and no category is active yet, the controller
selects `Translate` when present and the first returned category
otherwise; the session does not remain without an active category. -/
theorem c10_initial_category (cats : List String)
    (h1 : cats ≠ []) (h2 : "" ∉ cats) :
    loadCategoriesSelect cats "" =
      (if "Translate" ∈ cats then "Translate" else cats.headD "") ∧
    loadCategoriesSelect cats "" ≠ "" := by
  cases cats with
  | nil => exact absurd rfl h1
  | cons a t =>
    have hlen : 0 < (a :: t).length := by simp
    constructor
    · simp [loadCategoriesSelect, hlen]
    · by_cases hc : "Translate" ∈ (a :: t)
      · simp [loadCategoriesSelect, hlen, hc]
      · simp only [loadCategoriesSelect, hlen, true_and, if_true, hc,
          if_false, List.headD]
        intro hcontra
        have hmem : ("" : String) ∈ a :: t := by
          rw [← hcontra]
          exact List.mem_cons_self a t
        exact h2 hmem

theorem c10_initial_category_witness :
    loadCategoriesSelect ["System", "Translate", "Polishing"] "" =
      (if "Translate" ∈ (["System", "Translate", "Polishing"] : List String)
        then "Translate"
        else (["System", "Translate", "Polishing"] : List String).headD "") ∧
    loadCategoriesSelect ["System", "Translate", "Polishing"] "" ≠ "" :=
  c10_initial_category ["System", "Translate", "Polishing"]
    (by decide) (by decide)

end Prompts
